import Mathlib

/-!
Verification of the filtering/aggregation/analytics core of the NYC
Air-Quality dashboard backend (`backend/main.py`, with the duplicated
Streamlit variant in `app.py`).

Modelling conventions:
* a pandas DataFrame of measurements is a `DataFrame`: a list of `Row`
  records plus a flag recording whether the optional `is_outlier` column
  exists;
* float values are modelled as rationals (`ℚ`); a float NaN is `Option.none`;
* Python string operations are modelled character-wise on `String.data`
  (the labels in this dataset are ASCII, where Python's `str.lower`/`upper`
  agree with `Char.toLower`/`toUpper`);
* pandas group-by is modelled as "distinct keys, each paired with the rows
  sharing that key".  pandas additionally sorts group keys; every property
  proved below is invariant under the order of groups, and where the code
  itself sorts the output (time series, correlation pairs) the sort is
  modelled explicitly.
-/

/-- Python `s.lower()` (character-wise, ASCII-faithful). -/
def lowerStr (s : String) : String := ⟨s.data.map Char.toLower⟩

/-- Python `s.upper()` (character-wise, ASCII-faithful). -/
def upperStr (s : String) : String := ⟨s.data.map Char.toUpper⟩

/-- Python `s[:n]` on a string (character slicing). -/
def takeStr (n : Nat) (s : String) : String := ⟨s.data.take n⟩

/-- Python `len(s)` on a string (number of characters). -/
def lenStr (s : String) : Nat := s.data.length

/-- Helper for substring search: does `pat` occur in the character list? -/
def hasSubAux (pat : List Char) : List Char → Bool
  | [] => pat.isEmpty
  | c :: cs => pat.isPrefixOf (c :: cs) || hasSubAux pat cs

/-- Python `pat in s` on strings (contiguous substring test). -/
def strHasSub (s pat : String) : Bool := hasSubAux pat.data s.data

/-- Python 3 `round` at integer precision: round half to even. -/
def pyRound (q : ℚ) : ℤ :=
  let f := ⌊q⌋
  if q - f < 1/2 then f
  else if 1/2 < q - f then f + 1
  else if f % 2 = 0 then f else f + 1

/-- pandas `Series.round(2)`: round half to even at two decimals. -/
def round2 (q : ℚ) : ℚ := (pyRound (q * 100) : ℚ) / 100

/-- Insertion into a sorted list, used to model the stable sorts performed
by `sort_values` and `list.sort`. -/
def insertLe (le : α → α → Bool) (x : α) : List α → List α
  | [] => [x]
  | y :: ys => if le x y then x :: y :: ys else y :: insertLe le x ys

/-- Insertion sort by a boolean comparison. -/
def insSortBy (le : α → α → Bool) : List α → List α
  | [] => []
  | x :: xs => insertLe le x (insSortBy le xs)

theorem insertLe_perm (le : α → α → Bool) (x : α) (l : List α) :
    (insertLe le x l).Perm (x :: l) := by
  induction l with
  | nil => simp [insertLe]
  | cons y ys ih =>
    by_cases h : le x y = true
    · simp [insertLe, h]
    · simp only [insertLe, h, if_false]
      exact (ih.cons y).trans (List.Perm.swap x y ys)

theorem insSortBy_perm (le : α → α → Bool) (l : List α) :
    (insSortBy le l).Perm l := by
  induction l with
  | nil => simp [insSortBy]
  | cons x xs ih =>
    exact (insertLe_perm le x (insSortBy le xs)).trans (ih.cons x)

theorem mem_insSortBy {le : α → α → Bool} {l : List α} {a : α} :
    a ∈ insSortBy le l ↔ a ∈ l :=
  (insSortBy_perm le l).mem_iff

theorem pairwise_insertLe {le : α → α → Bool}
    (htot : ∀ a b, le a b = true ∨ le b a = true)
    (htr : ∀ a b c, le a b = true → le b c = true → le a c = true)
    {x : α} {l : List α} (hl : l.Pairwise (fun a b => le a b = true)) :
    (insertLe le x l).Pairwise (fun a b => le a b = true) := by
  induction l with
  | nil => simp [insertLe]
  | cons y ys ih =>
    rcases List.pairwise_cons.1 hl with ⟨hy, hys⟩
    by_cases h : le x y = true
    · simp only [insertLe, h, if_true]
      refine List.pairwise_cons.2 ⟨?_, hl⟩
      intro z hz
      rcases List.mem_cons.1 hz with hz' | hz'
      · exact hz' ▸ h
      · exact htr x y z h (hy z hz')
    · simp only [insertLe, h, if_false]
      refine List.pairwise_cons.2 ⟨?_, ih hys⟩
      intro z hz
      rcases List.mem_cons.1 ((insertLe_perm le x ys).mem_iff.1 hz) with hz' | hz'
      · rw [hz']
        rcases htot x y with h' | h'
        · exact absurd h' h
        · exact h'
      · exact hy z hz'

theorem pairwise_insSortBy (le : α → α → Bool)
    (htot : ∀ a b, le a b = true ∨ le b a = true)
    (htr : ∀ a b c, le a b = true → le b c = true → le a c = true)
    (l : List α) :
    (insSortBy le l).Pairwise (fun a b => le a b = true) := by
  induction l with
  | nil => simp [insSortBy]
  | cons x xs ih => exact pairwise_insertLe htot htr ih

/-- Sum of a list of rationals (`Series.sum`). -/
def ratSum (l : List ℚ) : ℚ := l.foldr (· + ·) 0

/-- pandas mean of a list of (non-null) floats; the mean of an empty
series is NaN. -/
def meanQ (l : List ℚ) : Option ℚ :=
  if l.isEmpty then none else some (ratSum l / l.length)

/-- pandas mean of a float column: NaN entries are skipped; all-NaN gives
NaN. -/
def meanOpt (l : List (Option ℚ)) : Option ℚ := meanQ (l.filterMap id)

/-- Ascending sort of rationals, for medians and quantiles. -/
def sortQ (l : List ℚ) : List ℚ := insSortBy (fun a b => decide (a ≤ b)) l

/-- pandas median over the non-null values (average of the two middle
elements for an even count). -/
def medianQ (l : List ℚ) : Option ℚ :=
  let s := sortQ l
  let n := s.length
  if n = 0 then none
  else if n % 2 = 1 then some (s.getD (n / 2) 0)
  else some ((s.getD (n / 2 - 1) 0 + s.getD (n / 2) 0) / 2)

/-- pandas min over the non-null values. -/
def minQ (l : List ℚ) : Option ℚ :=
  match l with
  | [] => none
  | x :: xs => some (xs.foldl min x)

/-- pandas max over the non-null values. -/
def maxQ (l : List ℚ) : Option ℚ :=
  match l with
  | [] => none
  | x :: xs => some (xs.foldl max x)

/-- pandas `Series.quantile(p)` with linear interpolation over the sorted
non-null values. -/
def quantileQ (p : ℚ) (l : List ℚ) : Option ℚ :=
  let s := sortQ l
  let n := s.length
  if n = 0 then none
  else
    let h : ℚ := p * ((n : ℚ) - 1)
    let i := (⌊h⌋).toNat
    let lo := s.getD i 0
    let hi := s.getD (min (i + 1) (n - 1)) 0
    some (lo + (h - (i : ℚ)) * (hi - lo))

/-- One measurement record (§3 of the spec): a row of the parquet table. -/
structure Row where
  date : Int
  year : Int
  month : Nat
  season : String
  pollutant : String
  value : Option ℚ
  unit : String
  borough : Option String
  station_name : String
  is_outlier : Bool
deriving DecidableEq

/-- The measurement table: its rows plus whether the optional
`is_outlier` column is present. -/
structure DataFrame where
  rows : List Row
  hasOutlierCol : Bool
deriving DecidableEq

/-- Date-range mask of `filter_data`: applied only when a two-element
date range is given (`if date_range and len(date_range) == 2`), with
inclusive bounds on both sides. -/
def dateStage (date_range : Option (List Int)) (l : List Row) : List Row :=
  match date_range with
  | some [s, e] => l.filter (fun r => decide (s ≤ r.date) && decide (r.date ≤ e))
  | _ => l

/-- Pollutant mask of `filter_data`: applied only when a non-empty
pollutant list is given (`if pollutants and len(pollutants) > 0`). -/
def pollStage (pollutants : Option (List String)) (l : List Row) : List Row :=
  match pollutants with
  | some pl => if pl.isEmpty then l else l.filter (fun r => pl.contains r.pollutant)
  | none => l

/-- Borough mask of `filter_data`: applied only when a non-empty borough
list without the sentinel value All is given
(`if boroughs and len(boroughs) > 0 and 'All' not in boroughs`); a row
whose borough is NaN never satisfies `isin`. -/
def borStage (boroughs : Option (List String)) (l : List Row) : List Row :=
  match boroughs with
  | some bl =>
    if bl.isEmpty || bl.contains "All" then l
    else l.filter (fun r => match r.borough with
      | some b => bl.contains b
      | none => false)
  | none => l

/-- Outlier mask of `filter_data`: applied only when requested and the
`is_outlier` column exists. -/
def outlStage (exclude_outliers hasCol : Bool) (l : List Row) : List Row :=
  if exclude_outliers && hasCol then l.filter (fun r => !r.is_outlier) else l

/-- `filter_data` (backend/main.py lines 115-139): sequential boolean-mask
filters for date range, pollutant set, borough set and outliers.
`date_range`, `pollutants` and `boroughs` are `Option (List _)` so that
Python `None` and an explicit list are both representable; Python
truthiness of a list is its non-emptiness. -/
def filter_data (df : DataFrame) (date_range : Option (List Int))
    (pollutants boroughs : Option (List String))
    (exclude_outliers : Bool) : DataFrame :=
  ⟨outlStage exclude_outliers df.hasOutlierCol
    (borStage boroughs
      (pollStage pollutants
        (dateStage date_range df.rows))),
   df.hasOutlierCol⟩

/-- The date-range stage of `filter_data` as a row predicate (inactive
stages accept every row). -/
def datePred (date_range : Option (List Int)) (r : Row) : Bool :=
  match date_range with
  | some [s, e] => decide (s ≤ r.date) && decide (r.date ≤ e)
  | _ => true

/-- The pollutant stage of `filter_data` as a row predicate. -/
def pollPred (pollutants : Option (List String)) (r : Row) : Bool :=
  match pollutants with
  | some l => if l.isEmpty then true else l.contains r.pollutant
  | none => true

/-- The borough stage of `filter_data` as a row predicate. -/
def borPred (boroughs : Option (List String)) (r : Row) : Bool :=
  match boroughs with
  | some l =>
    if l.isEmpty || l.contains "All" then true
    else match r.borough with
      | some b => l.contains b
      | none => false
  | none => true

/-- The outlier stage of `filter_data` as a row predicate. -/
def outlPred (exclude_outliers hasOutlierCol : Bool) (r : Row) : Bool :=
  if exclude_outliers && hasOutlierCol then !r.is_outlier else true

/-- The conjunction of the four filter stages: filters compose as a
logical AND. -/
def filterPred (date_range : Option (List Int))
    (pollutants boroughs : Option (List String))
    (exclude_outliers hasOutlierCol : Bool) (r : Row) : Bool :=
  datePred date_range r && (pollPred pollutants r && (borPred boroughs r &&
    outlPred exclude_outliers hasOutlierCol r))

theorem filter_filter_and (l : List Row) (p q : Row → Bool) :
    (l.filter p).filter q = l.filter (fun r => p r && q r) := by
  rw [List.filter_filter]
  exact List.filter_congr (fun a _ => Bool.and_comm (q a) (p a))

theorem filter_pointwise_true (l : List Row) (p : Row → Bool)
    (h : ∀ r, p r = true) : l.filter p = l := by
  rw [List.filter_congr (fun a _ => h a)]
  exact List.filter_true l

theorem date_stage_eq (l : List Row) (date_range : Option (List Int)) :
    dateStage date_range l = l.filter (datePred date_range) := by
  rcases date_range with _ | dl
  · exact (filter_pointwise_true l _ (fun r => rfl)).symm
  · rcases dl with _ | ⟨d1, _ | ⟨d2, _ | ⟨d3, dtl⟩⟩⟩
    · exact (filter_pointwise_true l _ (fun r => rfl)).symm
    · exact (filter_pointwise_true l _ (fun r => rfl)).symm
    · rfl
    · exact (filter_pointwise_true l _ (fun r => rfl)).symm

theorem poll_stage_eq (l : List Row) (pollutants : Option (List String)) :
    pollStage pollutants l = l.filter (pollPred pollutants) := by
  rcases pollutants with _ | pl
  · exact (filter_pointwise_true l _ (fun r => rfl)).symm
  · by_cases hp : pl.isEmpty = true
    · show (if pl.isEmpty then l else _) = _
      rw [if_pos hp]
      refine (filter_pointwise_true l _ (fun r => ?_)).symm
      show (if pl.isEmpty then true else pl.contains r.pollutant) = true
      rw [if_pos hp]
    · show (if pl.isEmpty then l else _) = _
      rw [if_neg hp]
      refine List.filter_congr (fun a _ => ?_)
      show pl.contains a.pollutant = (if pl.isEmpty then true else pl.contains a.pollutant)
      rw [if_neg hp]

theorem bor_stage_eq (l : List Row) (boroughs : Option (List String)) :
    borStage boroughs l = l.filter (borPred boroughs) := by
  rcases boroughs with _ | bl
  · exact (filter_pointwise_true l _ (fun r => rfl)).symm
  · by_cases hb : (bl.isEmpty || bl.contains "All") = true
    · show (if bl.isEmpty || bl.contains "All" then l else _) = _
      rw [if_pos hb]
      refine (filter_pointwise_true l _ (fun r => ?_)).symm
      show (if bl.isEmpty || bl.contains "All" then true else _) = true
      rw [if_pos hb]
    · show (if bl.isEmpty || bl.contains "All" then l else _) = _
      rw [if_neg hb]
      refine List.filter_congr (fun a _ => ?_)
      show _ = (if bl.isEmpty || bl.contains "All" then true else _)
      rw [if_neg hb]

theorem outl_stage_eq (l : List Row) (exclude_outliers hasCol : Bool) :
    outlStage exclude_outliers hasCol l = l.filter (outlPred exclude_outliers hasCol) := by
  by_cases h : (exclude_outliers && hasCol) = true
  · show (if exclude_outliers && hasCol then _ else l) = _
    rw [if_pos h]
    refine List.filter_congr (fun a _ => ?_)
    show (!a.is_outlier) = (if exclude_outliers && hasCol then !a.is_outlier else true)
    rw [if_pos h]
  · show (if exclude_outliers && hasCol then _ else l) = _
    rw [if_neg h]
    refine (filter_pointwise_true l _ (fun r => ?_)).symm
    show (if exclude_outliers && hasCol then !r.is_outlier else true) = true
    rw [if_neg h]

theorem filter_data_eq_filter (df : DataFrame) (date_range : Option (List Int))
    (pollutants boroughs : Option (List String)) (exclude_outliers : Bool) :
    filter_data df date_range pollutants boroughs exclude_outliers =
      ⟨df.rows.filter
        (filterPred date_range pollutants boroughs exclude_outliers df.hasOutlierCol),
       df.hasOutlierCol⟩ := by
  unfold filter_data
  rw [date_stage_eq, poll_stage_eq, bor_stage_eq, outl_stage_eq,
    filter_filter_and, filter_filter_and, filter_filter_and]
  rfl

/-- C3: for every dataset and every Query Specification (date range,
pollutant set, borough set, outlier flag), applying `filter_data` twice
with the same specification yields the same row set as applying it once:
`filter(filter(df, spec), spec) = filter(df, spec)`. -/
theorem spec_C3_filter_idempotent (df : DataFrame) (date_range : Option (List Int))
    (pollutants boroughs : Option (List String)) (exclude_outliers : Bool) :
    filter_data (filter_data df date_range pollutants boroughs exclude_outliers)
      date_range pollutants boroughs exclude_outliers =
    filter_data df date_range pollutants boroughs exclude_outliers := by
  rw [filter_data_eq_filter df, filter_data_eq_filter]
  dsimp only
  congr 1
  rw [filter_filter_and]
  exact List.filter_congr (fun a _ => Bool.and_self _)

/-- C4: an empty or absent pollutant set applies no pollutant restriction,
and a borough set that is empty, absent, or contains the sentinel value
All anywhere applies no borough restriction: each such specification
produces the same result as the corresponding no-filter case, and the
disabled stage predicates accept every row. -/
theorem spec_C4_empty_sets_no_restriction (df : DataFrame)
    (date_range : Option (List Int)) (pollutants boroughs : Option (List String))
    (exclude_outliers : Bool) (bl : List String) :
    (filter_data df date_range (some []) boroughs exclude_outliers =
      filter_data df date_range none boroughs exclude_outliers)
    ∧ (filter_data df date_range pollutants (some []) exclude_outliers =
      filter_data df date_range pollutants none exclude_outliers)
    ∧ ("All" ∈ bl → filter_data df date_range pollutants (some bl) exclude_outliers =
      filter_data df date_range pollutants none exclude_outliers)
    ∧ (∀ r : Row, pollPred (some []) r = true)
    ∧ (∀ r : Row, pollPred none r = true)
    ∧ ("All" ∈ bl → ∀ r : Row, borPred (some bl) r = true) := by
  have hbp : "All" ∈ bl → ∀ r : Row, borPred (some bl) r = true := by
    intro hAll r
    have hc : bl.contains "All" = true := by simpa using hAll
    have hcond : (bl.isEmpty || bl.contains "All") = true := by
      rw [hc, Bool.or_true]
    show (if bl.isEmpty || bl.contains "All" then true else _) = true
    rw [if_pos hcond]
  refine ⟨rfl, rfl, ?_, fun r => rfl, fun r => rfl, hbp⟩
  intro hAll
  unfold filter_data
  rw [bor_stage_eq, bor_stage_eq]
  have hfe : ∀ l : List Row, l.filter (borPred (some bl)) = l.filter (borPred none) :=
    fun l => List.filter_congr (fun a _ => hbp hAll a)
  rw [hfe]

/-- Closed witness for C4: a specification whose borough set contains the
sentinel All filters nothing, checked on a concrete one-row frame. -/
theorem spec_C4_witness :
    filter_data ⟨[⟨0, 2020, 1, "Winter", "PM2.5", some 1, "u", some "Bronx", "s", false⟩], true⟩
        none none (some ["All", "Bronx"]) false =
      filter_data ⟨[⟨0, 2020, 1, "Winter", "PM2.5", some 1, "u", some "Bronx", "s", false⟩], true⟩
        none none none false :=
  (spec_C4_empty_sets_no_restriction
      ⟨[⟨0, 2020, 1, "Winter", "PM2.5", some 1, "u", some "Bronx", "s", false⟩], true⟩
      none none none false ["All", "Bronx"]).2.2.1 (by simp)

/-- Group key of `aggregate_data`: the tuple of values of the group-by
columns. A component is `none` when the corresponding column is not part
of the grouping for the requested level; `year` belongs to the key at all
three aggregating levels. The last component wraps the (possibly NaN)
borough and is present only when the borough column is used
(`dropna=False`: NaN keys form their own group). -/
def aggKey (level : String) (withB : Bool) (r : Row) :
    Option String × Int × Option Nat × String × Option (Option String) :=
  (if level = "Season" then some r.season else none,
   r.year,
   if level = "Month" then some r.month else none,
   r.pollutant,
   if withB then some r.borough else none)

/-- One output record of `aggregate_data`: the group-key columns plus the
five aggregated value statistics and the representative (earliest) date. -/
structure AggRow where
  season : Option String
  year : Int
  month : Option Nat
  pollutant : String
  borough : Option (Option String)
  value_mean : Option ℚ
  value_median : Option ℚ
  value_min : Option ℚ
  value_max : Option ℚ
  value_count : Nat
  date : Int
deriving DecidableEq

/-- Result of `aggregate_data`: either the input frame unchanged (level
Raw or unrecognized) or the list of aggregated group records. -/
inductive AggResult where
  | raw (df : DataFrame)
  | agg (rows : List AggRow)
deriving DecidableEq

/-- Earliest date of a group (`agg date min`); groups are always
non-empty so the default is never used. -/
def minDate (g : List Row) : Int :=
  match g.map (fun r => r.date) with
  | [] => 0
  | d :: ds => ds.foldl min d

/-- The group records produced by `aggregate_data` for one aggregating
level: one record per distinct group key, with mean/median/min/max over
the group's non-NaN values and `count` of the non-NaN values
(pandas `count` ignores NaN). pandas emits groups sorted by key; group
order is modelled as order of key occurrence, and no verified property
depends on the order of groups. -/
def aggGroups (df : DataFrame) (level : String) : List AggRow :=
  let withB := df.rows.any (fun r => r.borough.isSome)
  let keys := (df.rows.map (aggKey level withB)).dedup
  keys.map (fun k =>
    let g := df.rows.filter (fun r => decide (aggKey level withB r = k))
    let vals := g.filterMap (fun r => r.value)
    { season := k.1, year := k.2.1, month := k.2.2.1, pollutant := k.2.2.2.1,
      borough := k.2.2.2.2,
      value_mean := meanQ vals, value_median := medianQ vals,
      value_min := minQ vals, value_max := maxQ vals,
      value_count := vals.length, date := minDate g })

/-- `aggregate_data` (backend/main.py lines 142-177): group by the level's
key columns (plus borough when present with any non-NaN value,
`dropna=False`) and aggregate `value` by mean/median/min/max/count and the
date column by min; level Raw (or any other string) returns the input
unchanged. -/
def aggregate_data (df : DataFrame) (agg_level : String) : AggResult :=
  if agg_level = "Season" then AggResult.agg (aggGroups df "Season")
  else if agg_level = "Year" then AggResult.agg (aggGroups df "Year")
  else if agg_level = "Month" then AggResult.agg (aggGroups df "Month")
  else AggResult.raw df

/-- The aggregated records of `aggregate_data`, empty for the Raw case. -/
def aggRows (df : DataFrame) (agg_level : String) : List AggRow :=
  match aggregate_data df agg_level with
  | AggResult.agg out => out
  | AggResult.raw _ => []

theorem length_filterMap_value (g : List Row) :
    (g.filterMap (fun r => r.value)).length = g.countP (fun r => r.value.isSome) := by
  induction g with
  | nil => rfl
  | cons a t ih =>
    cases ha : a.value <;>
      simp [List.filterMap_cons, ha, List.countP_cons, ih]

theorem countP_partition {α κ : Type} [DecidableEq κ] (key : α → κ) (p : α → Bool)
    (l : List α) (K : Finset κ) (hcov : ∀ a ∈ l, key a ∈ K) :
    (∑ k ∈ K, l.countP (fun a => decide (key a = k) && p a)) = l.countP p := by
  induction l with
  | nil => simp
  | cons a t ih =>
    have hmem : key a ∈ K := hcov a (List.mem_cons_self a t)
    have hcovt : ∀ b ∈ t, key b ∈ K := fun b hb => hcov b (List.mem_cons_of_mem a hb)
    simp only [List.countP_cons]
    rw [Finset.sum_add_distrib, ih hcovt]
    congr 1
    by_cases hp : p a = true
    · rw [if_pos hp]
      have hrw : ∀ k ∈ K,
          (if (decide (key a = k) && p a) = true then 1 else 0) =
            (if key a = k then (fun _ => 1) k else 0) := by
        intro k _
        by_cases hk : key a = k <;> simp [hk, hp]
      rw [Finset.sum_congr rfl hrw, Finset.sum_ite_eq K (key a) (fun _ => 1), if_pos hmem]
    · have hp' : p a = false := Bool.not_eq_true _ ▸ (by simpa using hp)
      rw [if_neg hp]
      have hrw : ∀ k ∈ K,
          (if (decide (key a = k) && p a) = true then 1 else 0) = 0 := by
        intro k _
        simp [hp']
      rw [Finset.sum_congr rfl hrw]
      simp

theorem aggGroups_count_sum (df : DataFrame) (level : String) :
    ((aggGroups df level).map (fun a => a.value_count)).sum =
      df.rows.countP (fun r => r.value.isSome) := by
  unfold aggGroups
  rw [List.map_map]
  set withB := df.rows.any (fun r => r.borough.isSome) with hwb
  set keys := df.rows.map (aggKey level withB) with hkeys
  have hstep : ∀ k, ((fun a => a.value_count) ∘ fun k =>
      (let g := df.rows.filter (fun r => decide (aggKey level withB r = k))
       let vals := g.filterMap (fun r => r.value)
       AggRow.mk k.1 k.2.1 k.2.2.1 k.2.2.2.1 k.2.2.2.2
         (meanQ vals) (medianQ vals) (minQ vals) (maxQ vals) vals.length (minDate g))) k =
      df.rows.countP (fun r => decide (aggKey level withB r = k) && r.value.isSome) := by
    intro k
    show ((df.rows.filter (fun r => decide (aggKey level withB r = k))).filterMap
        (fun r => r.value)).length = _
    rw [length_filterMap_value, List.countP_filter]
    exact List.countP_congr (fun x _ => by
      cases h1 : decide (aggKey level withB x = k) <;> cases h2 : x.value.isSome <;> simp [h1, h2])
  rw [List.map_congr_left (fun k _ => hstep k)]
  rw [← List.sum_toFinset _ (List.nodup_dedup keys)]
  have hfs : keys.dedup.toFinset = keys.toFinset := by
    ext a; simp [List.mem_dedup]
  rw [hfs]
  exact countP_partition (aggKey level withB) (fun r => r.value.isSome) df.rows
    keys.toFinset
    (fun a ha => List.mem_toFinset.2 (List.mem_map_of_mem (aggKey level withB) ha))

theorem aggGroups_length_le (df : DataFrame) (level : String) :
    (aggGroups df level).length ≤ df.rows.length := by
  unfold aggGroups
  rw [List.length_map]
  calc ((df.rows.map (aggKey level (df.rows.any (fun r => r.borough.isSome)))).dedup).length
      ≤ (df.rows.map (aggKey level (df.rows.any (fun r => r.borough.isSome)))).length :=
        (List.dedup_sublist _).length_le
    _ = df.rows.length := List.length_map _ _

/-- C2 (amended): for every non-empty filtered row set and every
aggregation level in Month, Season, Year, the aggregated output has at
most as many rows as the input, and the sum of `value_count` over all
groups equals the number of rows whose value is non-NaN (pandas `count`
excludes NaN values; NaN-valued rows still belong to a group but
contribute 0 to its count). -/
theorem spec_C2_aggregation_counts (df : DataFrame) (level : String)
    (hlev : level = "Month" ∨ level = "Season" ∨ level = "Year")
    (_hne : df.rows ≠ []) :
    aggregate_data df level = AggResult.agg (aggRows df level)
    ∧ (aggRows df level).length ≤ df.rows.length
    ∧ ((aggRows df level).map (fun a => a.value_count)).sum =
        df.rows.countP (fun r => r.value.isSome) := by
  have hrows : aggRows df level = aggGroups df level := by
    rcases hlev with h | h | h <;> subst h <;> rfl
  have hagg : aggregate_data df level = AggResult.agg (aggRows df level) := by
    rcases hlev with h | h | h <;> subst h <;> rw [hrows] <;> rfl
  exact ⟨hagg, hrows ▸ aggGroups_length_le df level,
    hrows ▸ aggGroups_count_sum df level⟩

/-- Closed witness for C2: the amended bound and count identity checked
on a concrete two-row frame aggregated at level Year. -/
theorem spec_C2_witness :
    (aggRows ⟨[⟨0, 2020, 1, "Winter", "PM2.5", some 10, "u", some "Bronx", "s", false⟩,
               ⟨1, 2020, 2, "Winter", "PM2.5", some 20, "u", some "Bronx", "s", false⟩],
              true⟩ "Year").length ≤ 2
    ∧ ((aggRows ⟨[⟨0, 2020, 1, "Winter", "PM2.5", some 10, "u", some "Bronx", "s", false⟩,
                  ⟨1, 2020, 2, "Winter", "PM2.5", some 20, "u", some "Bronx", "s", false⟩],
                 true⟩ "Year").map (fun a => a.value_count)).sum = 2 :=
  ⟨(spec_C2_aggregation_counts _ "Year" (Or.inr (Or.inr rfl)) (by decide)).2.1,
   ((spec_C2_aggregation_counts _ "Year" (Or.inr (Or.inr rfl)) (by decide)).2.2).trans (by decide)⟩

/-- Counterexample to C2 as stated: on a one-row frame whose single value
is NaN, the per-group `value_count`s sum to 0, not to the total filtered
row count 1 — pandas `count` does not include rows whose value is NaN. -/
theorem spec_C2_counterexample :
    ¬ (((aggRows ⟨[⟨0, 2020, 1, "Winter", "PM2.5", none, "u", some "Bronx", "s", false⟩],
          true⟩ "Month").map (fun a => a.value_count)).sum =
        (⟨[⟨0, 2020, 1, "Winter", "PM2.5", none, "u", some "Bronx", "s", false⟩],
          true⟩ : DataFrame).rows.length) := by
  decide

/-- The four pollutant classes with an EPA breakpoint table. -/
inductive AqiKey where
  | pm25
  | pm10
  | o3
  | no2
deriving DecidableEq

/-- One EPA breakpoint segment: concentration range, AQI sub-range and
category label. -/
structure AqiBp where
  lo : ℚ
  hi : ℚ
  aqiLo : ℚ
  aqiHi : ℚ
  category : String
deriving DecidableEq

/-- PM2.5 breakpoint table of `calculate_aqi`. -/
def pm25_breakpoints : List AqiBp :=
  [⟨0, 12.0, 0, 50, "Good"⟩,
   ⟨12.1, 35.4, 51, 100, "Moderate"⟩,
   ⟨35.5, 55.4, 101, 150, "Unhealthy for Sensitive Groups"⟩,
   ⟨55.5, 150.4, 151, 200, "Unhealthy"⟩,
   ⟨150.5, 250.4, 201, 300, "Very Unhealthy"⟩,
   ⟨250.5, 500.4, 301, 500, "Hazardous"⟩]

/-- PM10 breakpoint table of `calculate_aqi`. -/
def pm10_breakpoints : List AqiBp :=
  [⟨0, 54, 0, 50, "Good"⟩,
   ⟨55, 154, 51, 100, "Moderate"⟩,
   ⟨155, 254, 101, 150, "Unhealthy for Sensitive Groups"⟩,
   ⟨255, 354, 151, 200, "Unhealthy"⟩,
   ⟨355, 424, 201, 300, "Very Unhealthy"⟩,
   ⟨425, 604, 301, 500, "Hazardous"⟩]

/-- O3 breakpoint table of `calculate_aqi` (no Hazardous segment). -/
def o3_breakpoints : List AqiBp :=
  [⟨0, 54, 0, 50, "Good"⟩,
   ⟨55, 70, 51, 100, "Moderate"⟩,
   ⟨71, 85, 101, 150, "Unhealthy for Sensitive Groups"⟩,
   ⟨86, 105, 151, 200, "Unhealthy"⟩,
   ⟨106, 200, 201, 300, "Very Unhealthy"⟩]

/-- NO2 breakpoint table of `calculate_aqi`. -/
def no2_breakpoints : List AqiBp :=
  [⟨0, 53, 0, 50, "Good"⟩,
   ⟨54, 100, 51, 100, "Moderate"⟩,
   ⟨101, 360, 101, 150, "Unhealthy for Sensitive Groups"⟩,
   ⟨361, 649, 151, 200, "Unhealthy"⟩,
   ⟨650, 1249, 201, 300, "Very Unhealthy"⟩,
   ⟨1250, 2049, 301, 500, "Hazardous"⟩]

/-- The breakpoint table for each supported pollutant class. -/
def aqiBreakpoints : AqiKey → List AqiBp
  | AqiKey.pm25 => pm25_breakpoints
  | AqiKey.pm10 => pm10_breakpoints
  | AqiKey.o3 => o3_breakpoints
  | AqiKey.no2 => no2_breakpoints

/-- Pollutant-label classification of `calculate_aqi`: case-insensitive
substring match against the raw label, PM2.5 patterns checked before PM10. -/
def classifyPollutant (pollutant : String) : Option AqiKey :=
  let up := upperStr pollutant
  if strHasSub up "PM2.5" || strHasSub up "PM 2.5" then some AqiKey.pm25
  else if strHasSub up "PM10" || strHasSub up "PM 10" then some AqiKey.pm10
  else if strHasSub up "O3" || strHasSub up "OZONE" then some AqiKey.o3
  else if strHasSub up "NO2" || strHasSub up "NITROGEN DIOXIDE" then some AqiKey.no2
  else none

/-- Category-to-color lookup of `calculate_aqi` (`colors.get(category,
'#808080')`). -/
def colorOf (category : String) : String :=
  if category = "Good" then "#00e400"
  else if category = "Moderate" then "#ffff00"
  else if category = "Unhealthy for Sensitive Groups" then "#ff7e00"
  else if category = "Unhealthy" then "#ff0000"
  else if category = "Very Unhealthy" then "#8f3f97"
  else if category = "Hazardous" then "#7e0023"
  else "#808080"

/-- First breakpoint segment whose inclusive range contains the value,
mirroring the loop `for bp_low, bp_high, ... in breakpoints`. -/
def findBp (value : ℚ) : List AqiBp → Option AqiBp
  | [] => none
  | bp :: rest => if bp.lo ≤ value ∧ value ≤ bp.hi then some bp else findBp value rest

/-- Result record of `calculate_aqi`: the AQI (None when not available),
category and color; the `message`, `value` and `pollutant` passthrough
fields of the Python dict carry no logic and are omitted. -/
structure AqiResult where
  aqi : Option ℤ
  category : String
  color : String
deriving DecidableEq

/-- `calculate_aqi` (backend/main.py lines 510-620): classify the label,
scan the class's breakpoint table, linearly interpolate the AQI inside
the matched segment (Python bankers rounding), fall through to
AQI 500 / Hazardous above the table, and report Not Available for
unrecognized labels. The dead `if key not in aqi_breakpoints` branch of
the source (every classified key has a table) has no counterpart. -/
def calculate_aqi (pollutant : String) (value : ℚ) : AqiResult :=
  match classifyPollutant pollutant with
  | none => ⟨none, "Not Available", "#808080"⟩
  | some key =>
    match findBp value (aqiBreakpoints key) with
    | some bp =>
      ⟨some (pyRound ((bp.aqiHi - bp.aqiLo) / (bp.hi - bp.lo) * (value - bp.lo) + bp.aqiLo)),
       bp.category, colorOf bp.category⟩
    | none => ⟨some 500, "Hazardous", "#7e0023"⟩

/-- C1: `calculate_aqi` meets the four reference points: PM2.5 at 12.0
gives AQI 50 Good; PM2.5 at 12.1 gives AQI 51 Moderate; PM2.5 at 600
saturates at AQI 500 Hazardous; and any label matching none of the four
patterns (such as UnknownGas) yields a null AQI with category
Not Available, never an error. -/
theorem spec_C1_aqi_reference_points :
    calculate_aqi "PM2.5" 12 = ⟨some 50, "Good", "#00e400"⟩
    ∧ calculate_aqi "PM2.5" (12.1 : ℚ) = ⟨some 51, "Moderate", "#ffff00"⟩
    ∧ calculate_aqi "PM2.5" 600 = ⟨some 500, "Hazardous", "#7e0023"⟩
    ∧ classifyPollutant "UnknownGas" = none
    ∧ (∀ (p : String) (v : ℚ), classifyPollutant p = none →
        calculate_aqi p v = ⟨none, "Not Available", "#808080"⟩) := by
  have hclass : classifyPollutant "PM2.5" = some AqiKey.pm25 := by decide
  refine ⟨?_, ?_, ?_, by decide, ?_⟩
  · have hbp : findBp (12 : ℚ) pm25_breakpoints = some ⟨0, 12.0, 0, 50, "Good"⟩ := by
      norm_num [findBp, pm25_breakpoints]
    unfold calculate_aqi
    rw [hclass]
    dsimp only
    rw [show aqiBreakpoints AqiKey.pm25 = pm25_breakpoints from rfl, hbp]
    dsimp only
    rw [show colorOf "Good" = "#00e400" from by decide]
    norm_num [pyRound]
  · have hbp : findBp (12.1 : ℚ) pm25_breakpoints =
        some ⟨12.1, 35.4, 51, 100, "Moderate"⟩ := by
      norm_num [findBp, pm25_breakpoints]
    unfold calculate_aqi
    rw [hclass]
    dsimp only
    rw [show aqiBreakpoints AqiKey.pm25 = pm25_breakpoints from rfl, hbp]
    dsimp only
    rw [show colorOf "Moderate" = "#ffff00" from by decide]
    norm_num [pyRound]
  · have hbp : findBp (600 : ℚ) pm25_breakpoints = none := by
      norm_num [findBp, pm25_breakpoints]
    unfold calculate_aqi
    rw [hclass]
    dsimp only
    rw [show aqiBreakpoints AqiKey.pm25 = pm25_breakpoints from rfl, hbp]
  · intro p v h
    unfold calculate_aqi
    rw [h]

/-- Closed witness for C1: the unknown-label case at the spec's example
input UnknownGas with value 10. -/
theorem spec_C1_witness :
    calculate_aqi "UnknownGas" 10 = ⟨none, "Not Available", "#808080"⟩ :=
  spec_C1_aqi_reference_points.2.2.2.2 "UnknownGas" 10 (by decide)

theorem findBp_eq_none (v : ℚ) (bps : List AqiBp)
    (h : ∀ bp ∈ bps, ¬(bp.lo ≤ v ∧ v ≤ bp.hi)) : findBp v bps = none := by
  induction bps with
  | nil => rfl
  | cons bp rest ih =>
    show (if bp.lo ≤ v ∧ v ≤ bp.hi then some bp else findBp v rest) = none
    rw [if_neg (h bp (List.mem_cons_self bp rest))]
    exact ih (fun b hb => h b (List.mem_cons_of_mem bp hb))

theorem aqiBp_lo_nonneg (key : AqiKey) : ∀ bp ∈ aqiBreakpoints key, (0 : ℚ) ≤ bp.lo := by
  cases key <;> intro bp hbp <;>
    fin_cases hbp <;>
    norm_num [aqiBreakpoints, pm25_breakpoints, pm10_breakpoints, o3_breakpoints,
      no2_breakpoints]

/-- C10: for a value recognized as one of the four pollutant classes that
lies in none of the class's breakpoint segments — in particular any value
strictly between two consecutive segments (such as PM2.5 at 12.05) and
any negative value — `calculate_aqi` returns the fall-through result
AQI 500 with category Hazardous, neither an interpolated AQI nor the
Not Available sentinel. -/
theorem spec_C10_gap_and_negative_fall_through (p : String) (v : ℚ) (key : AqiKey)
    (hclass : classifyPollutant p = some key)
    (hmiss : (∀ bp ∈ aqiBreakpoints key, ¬(bp.lo ≤ v ∧ v ≤ bp.hi)) ∨ v < 0) :
    calculate_aqi p v = ⟨some 500, "Hazardous", "#7e0023"⟩ := by
  have hnone : findBp v (aqiBreakpoints key) = none := by
    rcases hmiss with h | hv
    · exact findBp_eq_none v _ h
    · refine findBp_eq_none v _ (fun bp hbp hin => ?_)
      exact absurd (le_trans (aqiBp_lo_nonneg key bp hbp) hin.1) (not_le.2 hv)
  unfold calculate_aqi
  rw [hclass]
  dsimp only
  rw [hnone]

/-- Closed witness for C10: PM2.5 at 12.05 (strictly between the Good and
Moderate segments) and O3 at -5 (negative) both fall through to
AQI 500 / Hazardous. -/
theorem spec_C10_witness :
    calculate_aqi "PM2.5" (12.05 : ℚ) = ⟨some 500, "Hazardous", "#7e0023"⟩
    ∧ calculate_aqi "OZONE" (-5) = ⟨some 500, "Hazardous", "#7e0023"⟩ :=
  ⟨spec_C10_gap_and_negative_fall_through "PM2.5" (12.05 : ℚ) AqiKey.pm25 (by decide)
      (Or.inl (by
        intro bp hbp
        fin_cases hbp <;> norm_num [aqiBreakpoints, pm25_breakpoints])),
   spec_C10_gap_and_negative_fall_through "OZONE" (-5) AqiKey.o3 (by decide)
      (Or.inr (by norm_num))⟩

/-- Does the label contain vehicle or truck in any letter case? The
shared trigger of both pattern-variant normalizers. -/
def vehicleOrTruck (pollutant : String) : Bool :=
  strHasSub (lowerStr pollutant) "vehicle" || strHasSub (lowerStr pollutant) "truck"

/-- `normalize_pollutant_name` (time-series variant, backend/main.py
lines 426-432): vehicle/truck labels collapse to Vehicle Miles, all other
labels are truncated to 15 characters when longer. -/
def normalize_pollutant_name (pollutant : String) : String :=
  if vehicleOrTruck pollutant then "Vehicle Miles"
  else if 15 < lenStr pollutant then takeStr 15 pollutant else pollutant

/-- `normalize_pollutant_for_heatmap` (heatmap variant, backend/main.py
lines 347-353): vehicle/truck labels collapse to Vehicle Miles, all other
labels are returned unchanged — this variant performs no truncation. -/
def normalize_pollutant_for_heatmap (pollutant : String) : String :=
  if vehicleOrTruck pollutant then "Vehicle Miles" else pollutant

/-- C6 (amended): both pattern-variant normalizers are pure functions
sending every label that contains vehicle or truck (any case) to the
bucket Vehicle Miles; every other label is truncated to at most 15
characters by the time-series variant and returned unchanged (with no
truncation) by the heatmap variant, so two distinct vehicle/truck labels
always share one bucket within either variant. -/
theorem spec_C6_normalizer_behaviour (s t : String) :
    (vehicleOrTruck s = true →
      normalize_pollutant_name s = "Vehicle Miles"
      ∧ normalize_pollutant_for_heatmap s = "Vehicle Miles")
    ∧ (vehicleOrTruck s = false →
      lenStr (normalize_pollutant_name s) ≤ 15
      ∧ normalize_pollutant_for_heatmap s = s)
    ∧ (vehicleOrTruck s = true → vehicleOrTruck t = true →
      normalize_pollutant_name s = normalize_pollutant_name t
      ∧ normalize_pollutant_for_heatmap s = normalize_pollutant_for_heatmap t) := by
  refine ⟨?_, ?_, ?_⟩
  · intro hv
    unfold normalize_pollutant_name normalize_pollutant_for_heatmap
    rw [if_pos hv, if_pos hv]
    exact ⟨rfl, rfl⟩
  · intro hv
    have hv' : ¬ vehicleOrTruck s = true := by rw [hv]; exact Bool.false_ne_true
    unfold normalize_pollutant_name normalize_pollutant_for_heatmap
    rw [if_neg hv', if_neg hv']
    refine ⟨?_, rfl⟩
    by_cases hl : 15 < lenStr s
    · rw [if_pos hl]
      show (s.data.take 15).length ≤ 15
      exact le_trans (List.length_take_le 15 s.data) (le_refl 15)
    · rw [if_neg hl]
      exact le_of_not_lt hl
  · intro hvs hvt
    unfold normalize_pollutant_name normalize_pollutant_for_heatmap
    rw [if_pos hvs, if_pos hvt, if_pos hvs, if_pos hvt]
    exact ⟨rfl, rfl⟩

/-- Closed witness for C6: a truck label and a long non-vehicle label,
checked through both variants. -/
theorem spec_C6_witness :
    (normalize_pollutant_name "Annual vehicle miles traveled (trucks)" = "Vehicle Miles"
      ∧ normalize_pollutant_for_heatmap "Annual vehicle miles traveled (trucks)" =
          "Vehicle Miles")
    ∧ (lenStr (normalize_pollutant_name "Fine particles (PM 2.5)") ≤ 15
      ∧ normalize_pollutant_for_heatmap "Fine particles (PM 2.5)" =
          "Fine particles (PM 2.5)") :=
  ⟨(spec_C6_normalizer_behaviour "Annual vehicle miles traveled (trucks)" "x").1 (by decide),
   (spec_C6_normalizer_behaviour "Fine particles (PM 2.5)" "x").2.1 (by decide)⟩

/-- Counterexample to C6 as stated: the heatmap pattern variant does not
truncate — a 26-character label without vehicle or truck keeps its full
26 characters, contradicting the claimed 25-character bound. -/
theorem spec_C6_counterexample :
    25 < lenStr (normalize_pollutant_for_heatmap "abcdefghijklmnopqrstuvwxyz") := by
  decide

/-- Canonical borough display order of the heatmap view. -/
def borough_order : List String :=
  ["Manhattan", "Brooklyn", "Queens", "Bronx", "Staten Island"]

/-- Heatmap source rows: the filtered rows without the Unknown borough
(`df_filtered[df_filtered['borough'] != 'Unknown']`; a NaN borough is not
equal to Unknown and passes). -/
def heatmap_source_rows (df_filtered : DataFrame) : List Row :=
  df_filtered.rows.filter (fun r => decide (r.borough ≠ some "Unknown"))

/-- Boroughs present in the heatmap pivot index: the distinct non-NaN
borough labels of the source rows (group-by drops NaN keys). -/
def heatmap_present_boroughs (hdf : List Row) : List String :=
  (hdf.filterMap (fun r => r.borough)).dedup

/-- Borough rows of the heatmap response, in canonical order
(`reindex([b for b in borough_order if b in heatmap_pivot.index])`). -/
def heatmap_boroughs (hdf : List Row) : List String :=
  borough_order.filter (fun b => (heatmap_present_boroughs hdf).contains b)

/-- Pollutant columns of the heatmap pivot: the distinct normalized
labels (pandas sorts pivot columns; column order is modelled as first
occurrence and no verified property depends on it). -/
def heatmap_pollutant_cols (hdf : List Row) : List String :=
  (hdf.map (fun r => normalize_pollutant_for_heatmap r.pollutant)).dedup

/-- One heatmap cell: mean measurement value for a borough and a
normalized pollutant label, rounded to 2 decimals; `none` where the
pivot has no data. -/
def heatmap_cell (hdf : List Row) (b pn : String) : Option ℚ :=
  (meanOpt ((hdf.filter (fun r =>
      decide (r.borough = some b) &&
        decide (normalize_pollutant_for_heatmap r.pollutant = pn))).map
    (fun r => r.value))).map round2

/-- C7: the heatmap lists borough rows in the fixed canonical order
Manhattan, Brooklyn, Queens, Bronx, Staten Island, omitting boroughs
absent from the data and dropping Unknown; with only Manhattan and Bronx
present the output order is exactly Manhattan then Bronx, not
alphabetical. -/
theorem spec_C7_heatmap_borough_order (df_filtered : DataFrame) :
    (heatmap_boroughs (heatmap_source_rows df_filtered)).Sublist borough_order
    ∧ "Unknown" ∉ heatmap_boroughs (heatmap_source_rows df_filtered)
    ∧ (∀ b, b ∈ heatmap_boroughs (heatmap_source_rows df_filtered) ↔
        b ∈ borough_order ∧
          b ∈ heatmap_present_boroughs (heatmap_source_rows df_filtered))
    ∧ heatmap_boroughs
        [⟨0, 2020, 1, "Winter", "PM2.5", some 10, "u", some "Manhattan", "s", false⟩,
         ⟨1, 2020, 1, "Winter", "PM2.5", some 20, "u", some "Bronx", "s", false⟩] =
        ["Manhattan", "Bronx"]
    ∧ ["Manhattan", "Bronx"] ≠ ["Bronx", "Manhattan"] := by
  refine ⟨List.filter_sublist borough_order, ?_, ?_, by decide, by decide⟩
  · intro hmem
    have : "Unknown" ∈ borough_order := List.mem_of_mem_filter hmem
    simp [borough_order] at this
  · intro b
    constructor
    · intro hb
      refine ⟨List.mem_of_mem_filter hb, ?_⟩
      have := List.of_mem_filter hb
      simpa using this
    · intro ⟨hbo, hbp⟩
      refine List.mem_filter.2 ⟨hbo, ?_⟩
      simpa using hbp

/-- Closed witness for C7: the concrete Manhattan-and-Bronx frame keeps
the canonical, non-alphabetical order. -/
theorem spec_C7_witness :
    heatmap_boroughs
        [⟨0, 2020, 1, "Winter", "PM2.5", some 10, "u", some "Manhattan", "s", false⟩,
         ⟨1, 2020, 1, "Winter", "PM2.5", some 20, "u", some "Bronx", "s", false⟩] =
      ["Manhattan", "Bronx"] :=
  (spec_C7_heatmap_borough_order ⟨[], true⟩).2.2.2.1

/-- Decimal digits of a natural number as characters (fuel-based so that
it reduces in the kernel); fuel `n + 1` always suffices. -/
def natStrAux (fuel n : Nat) : List Char :=
  match fuel with
  | 0 => []
  | f + 1 =>
    if n < 10 then [Char.ofNat (48 + n)]
    else natStrAux f (n / 10) ++ [Char.ofNat (48 + n % 10)]

/-- Python `str(n)` for an integer. -/
def intStr (n : Int) : String :=
  if n < 0 then ⟨'-' :: natStrAux (n.natAbs + 1) n.natAbs⟩
  else ⟨natStrAux (n.toNat + 1) n.toNat⟩

/-- The season-to-month map of the time-series sort key, with the
`fillna(1)` default for labels outside the dict. -/
def seasonToMonthD (s : String) : Int :=
  if s = "Winter" then 1
  else if s = "Spring" then 3
  else if s = "Summer" then 6
  else if s = "Fall" then 9
  else if s = "Annual" then 1
  else 1

/-- A row of the Season time-series table after the first re-grouping:
group key columns, mean value, synthetic chronological sort key and the
display label `season + ' ' + str(year)`. -/
structure TsRow1 where
  season : String
  year : Int
  pollutant : String
  value : Option ℚ
  sort_key : Int
  date_str : String
deriving DecidableEq

/-- Season branch of `get_timeseries_data`, first stage
(backend/main.py lines 399-404): re-group the aggregated rows by
(season, year, pollutant) with mean of `value_mean` (this group-by drops
NaN keys), attach `sort_key = year*100 + season_month` and
`date_str = season + ' ' + str(year)`, and sort by the sort key. -/
def ts_season_rows (disp : List AggRow) : List TsRow1 :=
  let rows := disp.filter (fun a => a.season.isSome)
  let keys := (rows.map (fun a => (a.season.getD "", a.year, a.pollutant))).dedup
  let grouped := keys.map (fun k =>
    ({ season := k.1, year := k.2.1, pollutant := k.2.2,
       value := meanOpt ((rows.filter (fun a =>
           decide ((a.season.getD "", a.year, a.pollutant) = k))).map (fun a => a.value_mean)),
       sort_key := k.2.1 * 100 + seasonToMonthD k.1,
       date_str := k.1 ++ " " ++ intStr k.2.1 } : TsRow1))
  insSortBy (fun a b => decide (a.sort_key ≤ b.sort_key)) grouped

/-- A row of the final Season time-series output: x-axis label,
normalized pollutant label, sort key and mean value. -/
structure TsRow2 where
  date_str : String
  pollutant_short : String
  sort_key : Int
  value : Option ℚ
deriving DecidableEq

/-- Season branch of `get_timeseries_data`, second stage
(backend/main.py lines 426-437): normalize pollutant labels, re-group by
(x-axis label, short label, sort key) with mean, and re-sort by the sort
key so that the chart order is chronological. -/
def ts_season_final (disp : List AggRow) : List TsRow2 :=
  let ts := ts_season_rows disp
  let keys := (ts.map (fun r =>
      (r.date_str, normalize_pollutant_name r.pollutant, r.sort_key))).dedup
  let grouped := keys.map (fun k =>
    ({ date_str := k.1, pollutant_short := k.2.1, sort_key := k.2.2,
       value := meanOpt ((ts.filter (fun r =>
           decide ((r.date_str, normalize_pollutant_name r.pollutant, r.sort_key) = k))).map
         (fun r => r.value)) } : TsRow2))
  insSortBy (fun a b => decide (a.sort_key ≤ b.sort_key)) grouped

/-- Season time series of a filtered frame: aggregate at level Season,
then run the two time-series stages. -/
def timeseries_season_of (df_filtered : DataFrame) : List TsRow2 :=
  ts_season_final (aggRows df_filtered "Season")

/-- C5: in the Season time series every row's sort key equals
`year*100 + season_month` with Winter 1, Spring 3, Summer 6, Fall 9,
Annual 1; the output is ordered by ascending sort key; and on the spec's
two-row scenario the Winter 2020 row (key 202001) precedes the
Summer 2020 row (key 202006), so the chart x-order is
Winter 2020 then Summer 2020. -/
theorem spec_C5_season_sort_key (disp : List AggRow) :
    (∀ r ∈ ts_season_rows disp,
      r.sort_key = r.year * 100 + seasonToMonthD r.season)
    ∧ (ts_season_final disp).Pairwise (fun a b => a.sort_key ≤ b.sort_key)
    ∧ seasonToMonthD "Winter" = 1 ∧ seasonToMonthD "Spring" = 3
    ∧ seasonToMonthD "Summer" = 6 ∧ seasonToMonthD "Fall" = 9
    ∧ seasonToMonthD "Annual" = 1
    ∧ ((timeseries_season_of
        ⟨[⟨0, 2020, 1, "Winter", "PM2.5", some 10, "u", some "Manhattan", "s", false⟩,
          ⟨1, 2020, 7, "Summer", "PM2.5", some 20, "u", some "Manhattan", "s", false⟩],
         true⟩).map (fun r => r.date_str) = ["Winter 2020", "Summer 2020"]) := by
  refine ⟨?_, ?_, by decide, by decide, by decide, by decide, by decide, by decide⟩
  · intro r hr
    rcases List.mem_map.1 (mem_insSortBy.1 hr) with ⟨k, _, hfk⟩
    rw [← hfk]
  · have hp := pairwise_insSortBy
      (fun (a b : TsRow2) => decide (a.sort_key ≤ b.sort_key))
      (fun a b => by
        rcases le_total a.sort_key b.sort_key with h | h
        · exact Or.inl (decide_eq_true h)
        · exact Or.inr (decide_eq_true h))
      (fun a b c hab hbc =>
        decide_eq_true (le_trans (of_decide_eq_true hab) (of_decide_eq_true hbc)))
    exact (hp _).imp (fun h => of_decide_eq_true h)

theorem headD_mem {l : List α} (d : α) (h : l ≠ []) : l.headD d ∈ l := by
  cases l with
  | nil => exact absurd rfl h
  | cons x xs => exact List.mem_cons_self x xs

/-- Closed witness for C5: the sort-key formula instantiated at the
first row of the scenario frame's season time series. -/
theorem spec_C5_witness :
    ∃ r ∈ ts_season_rows (aggRows
      ⟨[⟨0, 2020, 1, "Winter", "PM2.5", some 10, "u", some "Manhattan", "s", false⟩,
        ⟨1, 2020, 7, "Summer", "PM2.5", some 20, "u", some "Manhattan", "s", false⟩],
       true⟩ "Season"),
      r.sort_key = r.year * 100 + seasonToMonthD r.season := by
  have h := (spec_C5_season_sort_key (aggRows
      ⟨[⟨0, 2020, 1, "Winter", "PM2.5", some 10, "u", some "Manhattan", "s", false⟩,
        ⟨1, 2020, 7, "Summer", "PM2.5", some 20, "u", some "Manhattan", "s", false⟩],
       true⟩ "Season")).1
  have hlen : (ts_season_rows (aggRows
      ⟨[⟨0, 2020, 1, "Winter", "PM2.5", some 10, "u", some "Manhattan", "s", false⟩,
        ⟨1, 2020, 7, "Summer", "PM2.5", some 20, "u", some "Manhattan", "s", false⟩],
       true⟩ "Season")).length = 2 := by decide
  have hne : ts_season_rows (aggRows
      ⟨[⟨0, 2020, 1, "Winter", "PM2.5", some 10, "u", some "Manhattan", "s", false⟩,
        ⟨1, 2020, 7, "Summer", "PM2.5", some 20, "u", some "Manhattan", "s", false⟩],
       true⟩ "Season") ≠ [] := by
    intro hnil
    rw [hnil] at hlen
    exact absurd hlen (by decide)
  exact ⟨_, headD_mem ⟨"Winter", 2020, "PM2.5", none, 202001, "Winter 2020"⟩ hne,
    h _ (headD_mem ⟨"Winter", 2020, "PM2.5", none, 202001, "Winter 2020"⟩ hne)⟩

/-- The clamp `max(-1.0, min(1.0, c))` applied to every emitted
correlation (and, as `clip(lower=-1, upper=1)`, to the matrix). -/
def clampCorr (c : ℚ) : ℚ := max (-1) (min 1 c)

/-- Strength tag of a correlation value: strong when the absolute value
exceeds 0.7, moderate when it exceeds 0.4, weak otherwise. -/
def strengthOf (c : ℚ) : String :=
  if 7/10 < |c| then "strong" else if 4/10 < |c| then "moderate" else "weak"

/-- One emitted correlation pair. -/
structure CorrPair where
  pollutant1 : String
  pollutant2 : String
  correlation : ℚ
  strength : String
deriving DecidableEq

/-- The upper triangle of ordered pollutant pairs, in the order of the
double loop `for i, poll1 / for j, poll2 / if i < j`. -/
def upperPairs : List String → List (String × String)
  | [] => []
  | p :: rest => rest.map (fun q => (p, q)) ++ upperPairs rest

/-- The emitted pair list of `get_correlation_analysis`
(backend/main.py lines 849-867): upper-triangle pairs of the clipped
matrix, NaN entries skipped, values clamped to the valid range, tagged
by strength, and sorted by descending absolute correlation. The raw
pandas correlation matrix is the argument `M` (None models NaN). -/
def correlation_pairs (pols : List String) (M : String → String → Option ℚ) :
    List CorrPair :=
  insSortBy (fun a b => decide (|b.correlation| ≤ |a.correlation|))
    ((upperPairs pols).filterMap (fun pq =>
      match (M pq.1 pq.2).map clampCorr with
      | none => none
      | some c =>
        some { pollutant1 := pq.1, pollutant2 := pq.2,
               correlation := clampCorr c,
               strength := strengthOf (clampCorr c) }))

/-- The matrix emitted for display (backend/main.py line 870): clip,
fill NaN with 0, clip again. -/
def correlation_matrix_clean (M : String → String → Option ℚ) (p q : String) : ℚ :=
  clampCorr (((M p q).map clampCorr).getD 0)

/-- Exact rational square root when it exists, `none` otherwise: the
rational shadow of the float square root inside the Pearson formula. -/
def ratSqrt (q : ℚ) : Option ℚ :=
  if q < 0 then none
  else if Nat.sqrt q.num.toNat * Nat.sqrt q.num.toNat = q.num.toNat
      ∧ Nat.sqrt q.den * Nat.sqrt q.den = q.den then
    some ((Nat.sqrt q.num.toNat : ℚ) / (Nat.sqrt q.den : ℚ))
  else none

/-- Numerator `n·Σxy − Σx·Σy` of the Pearson correlation over paired
observations. -/
def pearsonN (ps : List (ℚ × ℚ)) : ℚ :=
  (ps.length : ℚ) * ratSum (ps.map (fun p => p.1 * p.2)) -
    ratSum (ps.map (fun p => p.1)) * ratSum (ps.map (fun p => p.2))

/-- Discriminant `n·Σx² − (Σx)²` of the first coordinate. -/
def pearsonDx (ps : List (ℚ × ℚ)) : ℚ :=
  (ps.length : ℚ) * ratSum (ps.map (fun p => p.1 * p.1)) -
    ratSum (ps.map (fun p => p.1)) * ratSum (ps.map (fun p => p.1))

/-- Discriminant `n·Σy² − (Σy)²` of the second coordinate. -/
def pearsonDy (ps : List (ℚ × ℚ)) : ℚ :=
  (ps.length : ℚ) * ratSum (ps.map (fun p => p.2 * p.2)) -
    ratSum (ps.map (fun p => p.2)) * ratSum (ps.map (fun p => p.2))

/-- pandas Pearson correlation of paired observations
(`corr(method='pearson', min_periods=2)`): NaN (`none`) for fewer than
two pairs or zero variance; the value `N / sqrt(Dx·Dy)` otherwise.
The rational shadow is defined when the discriminant has an exact
rational root — which covers every property verified here; an inexact
root also yields `none`. -/
def pearson (ps : List (ℚ × ℚ)) : Option ℚ :=
  if ps.length < 2 then none
  else match ratSqrt (pearsonDx ps * pearsonDy ps) with
    | some s => if s = 0 then none else some (pearsonN ps / s)
    | none => none

/-- Pairwise deletion: keep exactly the positions where both series are
observed. -/
def completePairs (xs ys : List (Option ℚ)) : List (ℚ × ℚ) :=
  (xs.zip ys).filterMap (fun ab =>
    match ab.1, ab.2 with
    | some a, some b => some (a, b)
    | _, _ => none)

/-- Correlation of two pivot columns with pairwise deletion. -/
def corrCols (xs ys : List (Option ℚ)) : Option ℚ := pearson (completePairs xs ys)

/-- The pandas correlation matrix of a pivot table, indexed by pollutant
column. -/
def corrMatrixOf (cols : String → List (Option ℚ)) (p q : String) : Option ℚ :=
  corrCols (cols p) (cols q)

theorem clampCorr_bounds (c : ℚ) : -1 ≤ clampCorr c ∧ clampCorr c ≤ 1 :=
  ⟨le_max_left (-1) (min 1 c),
   max_le (by norm_num) (min_le_left 1 c)⟩

theorem strengthOf_iff (c : ℚ) :
    (strengthOf c = "strong" ↔ 7/10 < |c|)
    ∧ (strengthOf c = "moderate" ↔ (4/10 < |c| ∧ |c| ≤ 7/10))
    ∧ (strengthOf c = "weak" ↔ |c| ≤ 4/10) := by
  by_cases h1 : 7/10 < |c|
  · unfold strengthOf
    rw [if_pos h1]
    refine ⟨⟨fun _ => h1, fun _ => rfl⟩, ⟨fun h => absurd h (by decide), ?_⟩,
      ⟨fun h => absurd h (by decide), ?_⟩⟩
    · intro ⟨_, hle⟩
      exact absurd h1 (not_lt.2 hle)
    · intro hle
      exact absurd h1 (not_lt.2 (le_trans hle (by norm_num)))
  · by_cases h2 : 4/10 < |c|
    · unfold strengthOf
      rw [if_neg h1, if_pos h2]
      refine ⟨⟨fun h => absurd h (by decide), fun h => absurd h h1⟩,
        ⟨fun _ => ⟨h2, not_lt.1 h1⟩, fun _ => rfl⟩,
        ⟨fun h => absurd h (by decide), fun hle => absurd h2 (not_lt.2 hle)⟩⟩
    · unfold strengthOf
      rw [if_neg h1, if_neg h2]
      refine ⟨⟨fun h => absurd h (by decide), fun h => absurd h h1⟩,
        ⟨fun h => absurd h (by decide), fun ⟨h, _⟩ => absurd h h2⟩,
        ⟨fun _ => not_lt.1 h2, fun _ => rfl⟩⟩

theorem completePairs_self (xs : List (Option ℚ)) :
    completePairs xs xs = (xs.filterMap id).map (fun v => (v, v)) := by
  induction xs with
  | nil => rfl
  | cons x t ih =>
    cases x with
    | none =>
      show completePairs (none :: t) (none :: t) = _
      unfold completePairs
      rw [List.zip_cons_cons, List.filterMap_cons]
      exact ih
    | some a =>
      show completePairs (some a :: t) (some a :: t) = _
      unfold completePairs
      rw [List.zip_cons_cons, List.filterMap_cons]
      show (a, a) :: completePairs t t = (a, a) :: _
      rw [ih]

theorem ratSqrt_mul_self (q : ℚ) : ratSqrt (q * q) = some |q| := by
  unfold ratSqrt
  rw [if_neg (not_lt.2 (mul_self_nonneg q))]
  have hnt : (q * q).num.toNat = q.num.natAbs * q.num.natAbs := by
    rw [Rat.mul_self_num, ← Int.natAbs_mul_self]
    exact Int.toNat_natCast _
  have hdn : (q * q).den = q.den * q.den := Rat.mul_self_den q
  have hs1 : Nat.sqrt (q.num.natAbs * q.num.natAbs) = q.num.natAbs := by
    rw [← pow_two]
    exact Nat.sqrt_eq' _
  have hs2 : Nat.sqrt (q.den * q.den) = q.den := by
    rw [← pow_two]
    exact Nat.sqrt_eq' _
  rw [hnt, hdn, hs1, hs2, if_pos ⟨rfl, rfl⟩]
  congr 1
  rw [Rat.abs_def, Rat.divInt_eq_div]
  push_cast
  rw [Int.cast_natAbs, Int.cast_abs]

theorem pearson_diag_sums (xs : List (Option ℚ)) :
    pearsonN (completePairs xs xs) = pearsonDx (completePairs xs xs)
    ∧ pearsonDy (completePairs xs xs) = pearsonDx (completePairs xs xs) := by
  constructor
  · unfold pearsonN pearsonDx
    rw [completePairs_self]
    simp only [List.map_map]
    rfl
  · unfold pearsonDy pearsonDx
    rw [completePairs_self]
    simp only [List.map_map]
    rfl

theorem corrCols_self (xs : List (Option ℚ))
    (hlen : ¬ (completePairs xs xs).length < 2)
    (hdx : 0 < pearsonDx (completePairs xs xs)) :
    corrCols xs xs = some 1 := by
  obtain ⟨hN, hDy⟩ := pearson_diag_sums xs
  unfold corrCols pearson
  rw [if_neg hlen, hDy, ratSqrt_mul_self, abs_of_pos hdx]
  dsimp only
  rw [if_neg (ne_of_gt hdx), hN, div_self (ne_of_gt hdx)]

/-- C8: every emitted correlation value (pair list and filled matrix)
lies in the closed interval from -1 to 1; the pair list holds only
upper-triangle pairs, each tagged strong / moderate / weak exactly by
the 0.7 and 0.4 absolute-value thresholds, sorted by descending absolute
correlation; and two pollutant columns with identical (non-constant)
values per time key have correlation 1, whose tag is strong. -/
theorem spec_C8_correlation_analysis (pols : List String)
    (M : String → String → Option ℚ) (cols : String → List (Option ℚ))
    (p q : String) :
    (∀ pr ∈ correlation_pairs pols M,
      (-1 ≤ pr.correlation ∧ pr.correlation ≤ 1)
      ∧ (pr.pollutant1, pr.pollutant2) ∈ upperPairs pols
      ∧ (pr.strength = "strong" ↔ 7/10 < |pr.correlation|)
      ∧ (pr.strength = "moderate" ↔ (4/10 < |pr.correlation| ∧ |pr.correlation| ≤ 7/10))
      ∧ (pr.strength = "weak" ↔ |pr.correlation| ≤ 4/10))
    ∧ (correlation_pairs pols M).Pairwise
        (fun a b => |b.correlation| ≤ |a.correlation|)
    ∧ (-1 ≤ correlation_matrix_clean M p q ∧ correlation_matrix_clean M p q ≤ 1)
    ∧ (cols p = cols q → ¬ (completePairs (cols q) (cols q)).length < 2 →
        0 < pearsonDx (completePairs (cols q) (cols q)) →
        corrMatrixOf cols p q = some 1 ∧ strengthOf 1 = "strong") := by
  refine ⟨?_, ?_, clampCorr_bounds _, ?_⟩
  · intro pr hpr
    rcases List.mem_filterMap.1 (mem_insSortBy.1 hpr) with ⟨pq, hpq, hf⟩
    rcases hM : (M pq.1 pq.2).map clampCorr with _ | c
    · rw [hM] at hf
      exact absurd hf (by simp)
    · rw [hM] at hf
      have hinj := Option.some.inj hf
      subst hinj
      refine ⟨clampCorr_bounds c, ?_, strengthOf_iff (clampCorr c)⟩
      show (pq.1, pq.2) ∈ upperPairs pols
      rw [Prod.mk.eta]
      exact hpq
  · have hp := pairwise_insSortBy
      (fun (a b : CorrPair) => decide (|b.correlation| ≤ |a.correlation|))
      (fun a b => by
        rcases le_total |b.correlation| |a.correlation| with h | h
        · exact Or.inl (decide_eq_true h)
        · exact Or.inr (decide_eq_true h))
      (fun a b c hab hbc =>
        decide_eq_true (le_trans (of_decide_eq_true hbc) (of_decide_eq_true hab)))
    exact (hp _).imp (fun h => of_decide_eq_true h)
  · intro hcols hlen hdx
    refine ⟨?_, by norm_num [strengthOf]⟩
    unfold corrMatrixOf
    rw [hcols]
    exact corrCols_self (cols q) hlen hdx

/-- Closed witness for C8: two identical non-constant columns give
correlation 1, applied at the concrete column 1, 2. -/
theorem spec_C8_witness :
    corrMatrixOf (fun _ => [some 1, some 2]) "a" "b" = some 1
    ∧ strengthOf 1 = "strong" := by
  have hcp : completePairs [some 1, some 2] [some 1, some 2] = [(1, 1), (2, 2)] := rfl
  exact (spec_C8_correlation_analysis [] (fun _ _ => none)
      (fun _ => [some 1, some 2]) "a" "b").2.2.2
    rfl
    (by rw [hcp]; norm_num)
    (by rw [hcp]; norm_num [pearsonDx, ratSum])

/-- The Query Specification carried by every data endpoint
(`FilterRequest`, backend/main.py lines 107-113). -/
structure FilterRequest where
  date_range : Option (List Int)
  pollutants : Option (List String)
  boroughs : Option (List String)
  exclude_outliers : Bool
  agg_level : String

/-- An endpoint response: a no-data record with a `message` field, an
`error`-keyed record, or the ok payload. Both non-ok forms are ordinary
structured responses, never raised exceptions. -/
inductive Resp (α : Type) where
  | message (msg : String)
  | error (msg : String)
  | ok (payload : α)

/-- The filtered view of a request. -/
def filteredOf (df : DataFrame) (req : FilterRequest) : DataFrame :=
  filter_data df req.date_range req.pollutants req.boroughs req.exclude_outliers

/-- The display table of a request: aggregated with value column
`value_mean` unless the level is Raw (`if request.agg_level != 'Raw'`). -/
def displayOf (df_filtered : DataFrame) (agg_level : String) : AggResult × String :=
  if agg_level ≠ "Raw" then (aggregate_data df_filtered agg_level, "value_mean")
  else (AggResult.raw df_filtered, "value")

/-- Row count of a display table. -/
def dispRowCount : AggResult → Nat
  | AggResult.raw d => d.rows.length
  | AggResult.agg rows => rows.length

/-- The selected value column of a display table (`value` for raw,
`value_mean` for aggregated rows). -/
def dispValues : AggResult → List (Option ℚ)
  | AggResult.raw d => d.rows.map (fun r => r.value)
  | AggResult.agg rows => rows.map (fun a => a.value_mean)

/-- First unit of a row list, empty for no rows
(`df['unit'].iloc[0] if ... else ''`). -/
def unitFirst (rows : List Row) : String := (rows.head?.map (fun r => r.unit)).getD ""

/-- Unit of a display table: aggregation drops the unit column, so only
the raw table reports one. -/
def dispUnit : AggResult → String
  | AggResult.raw d => unitFirst d.rows
  | AggResult.agg _ => ""

/-- `get_filtered_data` (backend/main.py lines 201-233): no-data message
on an empty filtered view, otherwise the display table with its value
column and unit. -/
def get_filtered_data (df : DataFrame) (req : FilterRequest) :
    Resp (AggResult × String × String) :=
  let f := filteredOf df req
  if f.rows.length = 0 then Resp.message "No data matches the selected filters"
  else
    let d := displayOf f req.agg_level
    Resp.ok (d.1, d.2, dispUnit d.1)

/-- KPI summary record. -/
structure KpiPayload where
  mean : Option ℚ
  median : Option ℚ
  p25 : Option ℚ
  p75 : Option ℚ
  p95 : Option ℚ
  count : Nat
  unit : String

/-- pandas quantile of a float column (NaN skipped). -/
def quantileOpt (p : ℚ) (l : List (Option ℚ)) : Option ℚ := quantileQ p (l.filterMap id)

/-- `get_kpis` (backend/main.py lines 236-269): error record on an empty
filtered view, otherwise mean/median/p25/p75/p95/count over the selected
value column. -/
def get_kpis (df : DataFrame) (req : FilterRequest) : Resp KpiPayload :=
  let f := filteredOf df req
  if f.rows.length = 0 then Resp.error "No data matches the selected filters"
  else
    let d := displayOf f req.agg_level
    let vals := dispValues d.1
    Resp.ok
      { mean := meanOpt vals, median := medianQ (vals.filterMap id),
        p25 := quantileOpt (1/4) vals, p75 := quantileOpt (3/4) vals,
        p95 := quantileOpt (19/20) vals, count := dispRowCount d.1,
        unit := dispUnit d.1 }

/-- Per-borough mean values of the choropleth (group-by borough drops
NaN boroughs). -/
def boroughAvg (rows : List Row) : List (String × Option ℚ) :=
  let keys := (rows.filterMap (fun r => r.borough)).dedup
  keys.map (fun b =>
    (b, meanOpt ((rows.filter (fun r => decide (r.borough = some b))).map
      (fun r => r.value))))

/-- `get_map_data` (backend/main.py lines 281-325): drop Unknown
boroughs, report no-data when nothing is left, average across all
pollutants when none is requested, otherwise restrict to the first
requested pollutant (with its own no-data message when absent). -/
def get_map_data (df : DataFrame) (req : FilterRequest) :
    Resp (List (String × Option ℚ) × String × String) :=
  let f := filteredOf df req
  let map_rows := f.rows.filter (fun r => decide (r.borough ≠ some "Unknown"))
  if map_rows.length = 0 then Resp.message "No data available for map"
  else
    match req.pollutants with
    | none => Resp.ok (boroughAvg map_rows, "All", unitFirst map_rows)
    | some [] => Resp.ok (boroughAvg map_rows, "All", unitFirst map_rows)
    | some (p0 :: _) =>
      let mp := map_rows.filter (fun r => decide (r.pollutant = p0))
      if mp.length = 0 then Resp.message ("No data available for " ++ p0)
      else Resp.ok (boroughAvg mp, p0, unitFirst map_rows)

/-- `get_heatmap_data` (backend/main.py lines 328-371): drop Unknown
boroughs, report no-data when nothing is left, otherwise the canonical
borough rows, normalized pollutant columns, cell table and unit. -/
def get_heatmap_data (df : DataFrame) (req : FilterRequest) :
    Resp (List String × List String × (String → String → Option ℚ) × String) :=
  let f := filteredOf df req
  let hdf := heatmap_source_rows f
  if hdf.length = 0 then Resp.message "No data available for heatmap"
  else
    Resp.ok (heatmap_boroughs hdf, heatmap_pollutant_cols hdf, heatmap_cell hdf,
      unitFirst f.rows)

/-- A row of the Year time series. -/
structure TsYearRow where
  year : Int
  pollutant_short : String
  value : Option ℚ
deriving DecidableEq

/-- A row of the Month or Raw time series, keyed by a synthetic date. -/
structure TsDateRow where
  date : Int
  pollutant_short : String
  value : Option ℚ
deriving DecidableEq

/-- Year branch of `get_timeseries_data`: group by (year, pollutant)
with mean, sort by year, normalize labels and re-group by
(year, short label). -/
def ts_year_final (disp : List AggRow) : List TsYearRow :=
  let keys1 := (disp.map (fun a => (a.year, a.pollutant))).dedup
  let ts1 := keys1.map (fun k =>
    (k.1, k.2, meanOpt ((disp.filter (fun a => decide ((a.year, a.pollutant) = k))).map
      (fun a => a.value_mean))))
  let ts1s := insSortBy (fun a b => decide (a.1 ≤ b.1)) ts1
  let keys2 := (ts1s.map (fun t => (t.1, normalize_pollutant_name t.2.1))).dedup
  let rows := keys2.map (fun k =>
    ({ year := k.1, pollutant_short := k.2,
       value := meanOpt ((ts1s.filter (fun t =>
           decide ((t.1, normalize_pollutant_name t.2.1) = k))).map
         (fun t => t.2.2)) } : TsYearRow))
  insSortBy (fun a b => decide (a.year ≤ b.year)) rows

/-- Month branch of `get_timeseries_data`: synthesize a first-of-month
date from (year, month), sort by it, normalize labels and re-group by
(date, short label). The synthetic date is modelled as the
chronologically ordered integer `year*10000 + month*100 + 1`. -/
def ts_month_final (disp : List AggRow) : List TsDateRow :=
  let ts1 := disp.map (fun a =>
    (a.year * 10000 + ((a.month.getD 0 : Nat) : Int) * 100 + 1, a.pollutant, a.value_mean))
  let ts1s := insSortBy (fun a b => decide (a.1 ≤ b.1)) ts1
  let keys := (ts1s.map (fun t => (t.1, normalize_pollutant_name t.2.1))).dedup
  let rows := keys.map (fun k =>
    ({ date := k.1, pollutant_short := k.2,
       value := meanOpt ((ts1s.filter (fun t =>
           decide ((t.1, normalize_pollutant_name t.2.1) = k))).map
         (fun t => t.2.2)) } : TsDateRow))
  insSortBy (fun a b => decide (a.date ≤ b.date)) rows

/-- Raw branch of `get_timeseries_data`: sort rows by date, normalize
labels and group by (date, short label) with mean of `value`. -/
def ts_raw_final (rows : List Row) : List TsDateRow :=
  let s := insSortBy (fun a b => decide (a.date ≤ b.date)) rows
  let keys := (s.map (fun r => (r.date, normalize_pollutant_name r.pollutant))).dedup
  let out := keys.map (fun k =>
    ({ date := k.1, pollutant_short := k.2,
       value := meanOpt ((s.filter (fun r =>
           decide ((r.date, normalize_pollutant_name r.pollutant) = k))).map
         (fun r => r.value)) } : TsDateRow))
  insSortBy (fun a b => decide (a.date ≤ b.date)) out

/-- Payload of `get_timeseries_data`, one shape per aggregation level. -/
inductive TsPayload where
  | season (rows : List TsRow2)
  | year (rows : List TsYearRow)
  | month (rows : List TsDateRow)
  | raw (rows : List TsDateRow)
deriving DecidableEq

/-- `get_timeseries_data` (backend/main.py lines 374-446): no-data
message on an empty filtered view, otherwise the level-specific
chronologically sorted series. -/
def get_timeseries_data (df : DataFrame) (req : FilterRequest) :
    Resp (TsPayload × String) :=
  let f := filteredOf df req
  if f.rows.length = 0 then Resp.message "No data available for time series"
  else
    let unit := dispUnit (displayOf f req.agg_level).1
    if req.agg_level = "Season" then
      Resp.ok (TsPayload.season (ts_season_final (aggRows f "Season")), unit)
    else if req.agg_level = "Year" then
      Resp.ok (TsPayload.year (ts_year_final (aggRows f "Year")), unit)
    else if req.agg_level = "Month" then
      Resp.ok (TsPayload.month (ts_month_final (aggRows f "Month")), unit)
    else Resp.ok (TsPayload.raw (ts_raw_final f.rows), unit)

/-- The comparison request (backend/main.py lines 449-453). -/
structure ComparisonRequest where
  filters : FilterRequest
  comparison_type : String
  selected_items : List String
  single_filter : Option String

/-- Borough membership test on a raw row (an `isin` mask; NaN never
matches). -/
def rowBoroughIn (sel : List String) (r : Row) : Bool :=
  match r.borough with
  | some b => sel.contains b
  | none => false

/-- Borough membership test on an aggregated row. -/
def aggBoroughIn (sel : List String) (a : AggRow) : Bool :=
  match a.borough with
  | some (some b) => sel.contains b
  | _ => false

/-- Filter the display table by row predicates (one per shape). -/
def compFilterDisp (disp : AggResult) (pRow : Row → Bool) (pAgg : AggRow → Bool) :
    AggResult :=
  match disp with
  | AggResult.raw d => AggResult.raw ⟨d.rows.filter pRow, d.hasOutlierCol⟩
  | AggResult.agg rows => AggResult.agg (rows.filter pAgg)

/-- `get_comparison_data` (backend/main.py lines 455-507): no-data
message on an empty filtered view; borough mode fixes one pollutant and
keeps the selected boroughs; pollutant mode keeps the selected
pollutants, restricted to one borough unless the single filter is All,
empty or absent. -/
def get_comparison_data (df : DataFrame) (req : ComparisonRequest) :
    Resp (AggResult × String × String) :=
  let f := filteredOf df req.filters
  if f.rows.length = 0 then Resp.message "No data available for comparison"
  else
    let d := displayOf f req.filters.agg_level
    let comp :=
      if req.comparison_type = "boroughs" then
        compFilterDisp d.1
          (fun r => rowBoroughIn req.selected_items r &&
            decide (some r.pollutant = req.single_filter))
          (fun a => aggBoroughIn req.selected_items a &&
            decide (some a.pollutant = req.single_filter))
      else
        match req.single_filter with
        | none =>
          compFilterDisp d.1 (fun r => req.selected_items.contains r.pollutant)
            (fun a => req.selected_items.contains a.pollutant)
        | some sv =>
          if sv = "All" || sv = "" then
            compFilterDisp d.1 (fun r => req.selected_items.contains r.pollutant)
              (fun a => req.selected_items.contains a.pollutant)
          else
            compFilterDisp d.1
              (fun r => req.selected_items.contains r.pollutant &&
                decide (r.borough = some sv))
              (fun a => req.selected_items.contains a.pollutant &&
                decide (a.borough = some (some sv)))
    Resp.ok (comp, d.2, dispUnit comp)

/-- One trend record. The p-value, significance flag and direction of
the source come from SciPy's t-distribution and are not expressible over
the rationals; the exact OLS slope `N/Dx`, the exact R-squared
`N^2/(Dx·Dy)` and the percentage change are modelled. -/
structure TrendEntry where
  pollutant : String
  years : List Int
  values : List ℚ
  slope : ℚ
  r_squared : ℚ
  pct_change : ℚ

/-- Per-pollutant year-over-year trend records (backend/main.py lines
686-744): yearly means per pollutant, non-finite values dropped,
pollutants with fewer than two valid years silently skipped, percentage
change guarded against a zero first value. -/
def trendsOf (disp : AggResult) : List TrendEntry :=
  let prs : List (String × Int × Option ℚ) :=
    match disp with
    | AggResult.raw d => d.rows.map (fun r => (r.pollutant, r.year, r.value))
    | AggResult.agg rows => rows.map (fun a => (a.pollutant, a.year, a.value_mean))
  let pols := (prs.map (fun t => t.1)).dedup
  pols.filterMap (fun p =>
    let mine := prs.filter (fun t => decide (t.1 = p))
    let years := insSortBy (fun a b => decide (a ≤ b)) ((mine.map (fun t => t.2.1)).dedup)
    let yearly : List (Int × ℚ) := years.filterMap (fun y =>
      (meanOpt ((mine.filter (fun t => decide (t.2.1 = y))).map (fun t => t.2.2))).map
        (fun v => (y, v)))
    if yearly.length < 2 then none
    else
      let pts : List (ℚ × ℚ) := yearly.map (fun yv => ((yv.1 : ℚ), yv.2))
      let first := (yearly.headD (0, 0)).2
      let last := (yearly.getLastD (0, 0)).2
      some { pollutant := p,
             years := yearly.map (fun yv => yv.1),
             values := yearly.map (fun yv => yv.2),
             slope := pearsonN pts / pearsonDx pts,
             r_squared := pearsonN pts * pearsonN pts / (pearsonDx pts * pearsonDy pts),
             pct_change := if first ≠ 0 then (last - first) / first * 100 else 0 })

/-- `get_trend_analysis` (backend/main.py lines 658-747): error record
on an empty filtered view, otherwise the per-pollutant trend records. -/
def get_trend_analysis (df : DataFrame) (req : FilterRequest) : Resp (List TrendEntry) :=
  let f := filteredOf df req
  if f.rows.length = 0 then Resp.error "No data matches the selected filters"
  else Resp.ok (trendsOf (displayOf f req.agg_level).1)

/-- C9: whenever the filters eliminate every row, each of the seven data
endpoints returns its structured no-data (or error-keyed) record — a
total function of the request, never a raised exception — so an empty
filtered result is a valid, non-error outcome. -/
theorem spec_C9_empty_result_responses (df : DataFrame) (req : FilterRequest)
    (ct : String) (sel : List String) (sf : Option String)
    (hempty : (filteredOf df req).rows = []) :
    get_filtered_data df req = Resp.message "No data matches the selected filters"
    ∧ get_kpis df req = Resp.error "No data matches the selected filters"
    ∧ get_map_data df req = Resp.message "No data available for map"
    ∧ get_heatmap_data df req = Resp.message "No data available for heatmap"
    ∧ get_timeseries_data df req = Resp.message "No data available for time series"
    ∧ get_comparison_data df ⟨req, ct, sel, sf⟩ =
        Resp.message "No data available for comparison"
    ∧ get_trend_analysis df req = Resp.error "No data matches the selected filters" := by
  refine ⟨?_, ?_, ?_, ?_, ?_, ?_, ?_⟩
  · simp [get_filtered_data, hempty]
  · simp [get_kpis, hempty]
  · simp [get_map_data, hempty]
  · simp [get_heatmap_data, heatmap_source_rows, hempty]
  · simp [get_timeseries_data, hempty]
  · simp [get_comparison_data, hempty]
  · simp [get_trend_analysis, hempty]

/-- Closed witness for C9: a one-row frame whose row is an outlier,
filtered with outlier exclusion, leaves no rows, and the KPI endpoint
answers with the structured error record. -/
theorem spec_C9_witness :
    get_kpis ⟨[⟨0, 2020, 1, "Winter", "PM2.5", some 1, "u", some "Bronx", "s", true⟩], true⟩
        ⟨none, none, none, true, "Season"⟩ =
      Resp.error "No data matches the selected filters" :=
  (spec_C9_empty_result_responses
      ⟨[⟨0, 2020, 1, "Winter", "PM2.5", some 1, "u", some "Bronx", "s", true⟩], true⟩
      ⟨none, none, none, true, "Season"⟩ "boroughs" [] none rfl).2.1
